import Mathlib

/-!
Verification of the myQ API client (myq-api.ts) against its specification.

The development shallowly embeds the state and operations of the `myQApi`
class. Timestamps are natural numbers of milliseconds (`Date.now()`), HTTP
status codes are natural numbers, and the network is abstracted as oracles:
the outcome of each HTTP attempt of `retrieve` is a function from the attempt
index (the `isRetry` counter) to an outcome, and the network-touching
subroutines of `refreshDevices` and `refreshAccessToken` are explicit
function parameters that also report how many network requests they issued.
-/

namespace MyQ

/-- Fixed region list of the source: `const myQRegions = [ "", "east", "west" ]`. -/
def myQRegions : List String := ["", "east", "west"]

/-- Boolean test that `suffix` is a suffix of `s`, on the underlying character
lists of the strings. -/
def strEndsWith (s suffix : String) : Bool := decide (suffix.data <:+ s.data)

/-- Embedding of the region regex test of `retrieve`. The source builds
`new RegExp("^.*-(" + myQRegions.join("|") + ")$")` - that is,
`^.*-(|east|west)$` - and tests the first hostname label with it. A string
matches that regex exactly when it ends in "-", "-east" or "-west", i.e. in
`"-" ++ r` for some region name `r` in `myQRegions`. -/
def regionRegexTest (label : String) : Bool :=
  myQRegions.any (fun r => strEndsWith label ("-" ++ r))

/-- Embedding of the suffix appended to the first hostname label:
`this.region ? "-" + myQRegions[this.region] : ""`. -/
def regionSuffix (region : Nat) : String :=
  if region ≠ 0 then "-" ++ myQRegions.getD region "" else ""

/-- Rewrite of the first hostname label in `retrieve`: if the label does not
already carry a region specifier, append the active region's suffix
(`hostname[0] += this.region ? "-" + myQRegions[this.region] : ""`). -/
def rewriteLabel (region : Nat) (label : String) : String :=
  if regionRegexTest label then label else label ++ regionSuffix region

/-- Hostname rewrite of `retrieve`, on the hostname already split at "." into
its labels (`retrieveUrl.hostname.split(".")`): only the first label is
rewritten, the rest are kept (`retrieveUrl.hostname = hostname.join(".")`). -/
def rewriteHostname (region : Nat) : List String → List String
  | [] => []
  | l0 :: rest => rewriteLabel region l0 :: rest

lemma strEndsWith_append (s t : String) : strEndsWith (s ++ t) t = true := by
  simp only [strEndsWith, String.data_append, decide_eq_true_eq]
  exact List.suffix_append _ _

lemma regionRegexTest_append_suffix (l0 : String) (region : Nat)
    (h0 : region ≠ 0) (h3 : region < 3) :
    regionRegexTest (l0 ++ regionSuffix region) = true := by
  interval_cases region
  · exact absurd rfl h0
  · simp only [regionRegexTest, myQRegions, regionSuffix, List.any_cons, List.any_nil,
      Bool.or_eq_true, List.getD]
    refine Or.inr (Or.inl ?_)
    exact strEndsWith_append l0 _
  · simp only [regionRegexTest, myQRegions, regionSuffix, List.any_cons, List.any_nil,
      Bool.or_eq_true, List.getD]
    refine Or.inr (Or.inr (Or.inl ?_))
    exact strEndsWith_append l0 _

lemma rewriteLabel_idem (region : Nat) (h3 : region < 3) (label : String) :
    rewriteLabel region (rewriteLabel region label) = rewriteLabel region label := by
  by_cases h : regionRegexTest label = true
  · simp [rewriteLabel, h]
  · by_cases h0 : region = 0
    · subst h0
      have hsuf : regionSuffix 0 = "" := by simp [regionSuffix]
      simp [rewriteLabel, h, hsuf]
    · have hq := regionRegexTest_append_suffix label region h0 h3
      simp [rewriteLabel, h, hq]

/-- C9: the hostname-rewrite step of `retrieve` is idempotent: an already
region-qualified first label (one matching the region regex) is left
unchanged, and therefore applying the rewrite twice yields the same hostname
as applying it once. The active region index is always < 3, the length of
`myQRegions`, since it is only ever assigned modulo that length. -/
theorem rewriteHostname_idempotent (region : Nat) (h3 : region < 3)
    (labels : List String) :
    rewriteHostname region (rewriteHostname region labels) = rewriteHostname region labels
    ∧ ∀ l0 rest, regionRegexTest l0 = true →
        rewriteHostname region (l0 :: rest) = l0 :: rest := by
  constructor
  · cases labels with
    | nil => rfl
    | cons l0 rest =>
      simp only [rewriteHostname, List.cons.injEq, and_true]
      exact rewriteLabel_idem region h3 l0
  · intro l0 rest h
    simp [rewriteHostname, rewriteLabel, h]

/-- Witness for C9 at a concrete region and hostname. -/
theorem rewriteHostname_idempotent_witness :
    (1 : Nat) < 3
    ∧ (rewriteHostname 1 (rewriteHostname 1 ["api", "myq-cloud", "com"])
        = rewriteHostname 1 ["api", "myq-cloud", "com"]
      ∧ ∀ l0 rest, regionRegexTest l0 = true →
          rewriteHostname 1 (l0 :: rest) = l0 :: rest) :=
  ⟨by decide, rewriteHostname_idempotent 1 (by decide) ["api", "myq-cloud", "com"]⟩

/-- Device record of the myQ API (`myQDevice` in myq-types.ts), restricted to
the fields the core operations read. The source reads `serial_number` through
optional chaining, so it is optional here. -/
structure myQDevice where
  serial_number : Option String
  device_family : String
  name : String
deriving DecidableEq, Repr

/-- Instance state of the `myQApi` class: the fields declared at the top of
the class. `devices` is declared with a definite-assignment assertion in the
source and is undefined until the first successful refresh, hence an Option;
likewise `accessToken`, `email` and `password` are nullable. Timestamps
(`Date.now()` values) are naturals in milliseconds. -/
structure ClientState where
  devices : Option (List myQDevice)
  accessToken : Option String
  refreshInterval : Int
  refreshToken : String
  tokenScope : String
  accessTokenTimestamp : Nat
  apiReturnStatus : Nat
  email : Option String
  password : Option String
  accounts : List String
  lastAuthenticateCall : Nat
  lastRefreshDevicesCall : Nat
  region : Nat
deriving DecidableEq, Repr

/-- State of a freshly constructed `myQApi` instance, per the constructor. -/
def initialState : ClientState where
  devices := none
  accessToken := none
  refreshInterval := 0
  refreshToken := ""
  tokenScope := ""
  accessTokenTimestamp := 0
  apiReturnStatus := 0
  email := none
  password := none
  accounts := []
  lastAuthenticateCall := 0
  lastRefreshDevicesCall := 0
  region := 0

/-- Outcome of one HTTP attempt inside `retrieve`: either the transport threw
(connection refused/reset, DNS failure, timeout, TLS failure, or any other
fetch error - all of which land in the same `retry` call) or a response with
a status code came back. -/
inductive Outcome where
  | transportError
  | status (code : Nat)
deriving DecidableEq, Repr

/-- Status code recorded in `this.apiReturnStatus` by one attempt: the field
is reset to 0 before the request and set to `response.status` only when a
response arrives, so a transport error leaves it at 0. -/
def statusOf : Outcome → Nat
  | .transportError => 0
  | .status code => code

/-- Embedding of `response.ok` of the fetch API: status in the range 200-299. -/
def responseOk (code : Nat) : Bool := 200 ≤ code && code < 300

/-- Redirect status codes caught by `retrieve`. -/
def isRedirect (code : Nat) : Bool := [301, 302, 303, 307, 308].any (fun x => x == code)

/-- Credential-issue status codes caught by `retrieve`. -/
def isCredentialsIssue (code : Nat) : Bool := [400, 401].any (fun x => x == code)

/-- Server-side-issue status codes caught by `retrieve`. -/
def isServerSideIssue (code : Nat) : Bool := [429, 500, 502, 503, 504].any (fun x => x == code)

/-- Classification of one attempt's outcome by `retrieve`'s try/catch body:
`success` returns the response to the caller, `terminal` returns null without
retrying, `retryCand` invokes the `retry` closure. The branch order follows
the source: pass-through/ok/redirect, then 400/401, then 403, then the
server-side codes, then the unrecognized-error fallthrough; every transport
exception goes to `retry`. -/
inductive Classified where
  | success (code : Nat)
  | terminal
  | retryCand
deriving DecidableEq, Repr

/-- Classify one outcome exactly as the body of `retrieve` does. -/
def classify (decodeResponse : Bool) : Outcome → Classified
  | .status code =>
    if !decodeResponse || responseOk code || isRedirect code then .success code
    else if isCredentialsIssue code then .retryCand
    else if code == 403 then .terminal
    else if isServerSideIssue code then .retryCand
    else .terminal
  | .transportError => .retryCand

/-- Region update performed at the top of each `retrieve` invocation: when the
first hostname label carries no region specifier and this invocation is a
retry, the region index advances cyclically
(`this.region = ++this.region % myQRegions.length`). -/
def regionStep (qualified : Bool) (isRetry : Nat) (region : Nat) : Nat :=
  if !qualified && isRetry != 0 then (region + 1) % myQRegions.length else region

/-- Result of a `retrieve` call tree: the returned value (`some code` for a
returned Response, `none` for null), the instance state after the call, and
the region index that was active for each HTTP request actually issued, in
order (so the length of `attemptRegions` is the number of requests issued). -/
structure RunResult where
  response : Option Nat
  state : ClientState
  attemptRegions : List Nat
deriving DecidableEq, Repr

/-- Recursive core of `retrieve`. `net` maps the attempt index (the `isRetry`
counter, 0 for the original request and incremented once per retry) to that
attempt's outcome; `fl` is the first label of the target hostname. The `fuel`
argument is a shallow-embedding artifact making the recursion structural; the
source recursion is bounded by the `isRetry < 3` guard of the `retry` closure,
so fuel 4 at the top level is never exhausted. Each invocation advances the
region if applicable, resets `apiReturnStatus` to 0, issues the request and
records its status, then classifies the outcome; a retry candidate recurses
with `isRetry + 1` while `isRetry < 3` and otherwise fails with null. -/
def retrieveAux (net : Nat → Outcome) (decodeResponse : Bool) (fl : String) :
    Nat → Nat → ClientState → RunResult
  | 0, _, st => { response := none, state := st, attemptRegions := [] }
  | fuel + 1, isRetry, st =>
    let active := regionStep (regionRegexTest fl) isRetry st.region
    let st2 : ClientState := { st with region := active, apiReturnStatus := statusOf (net isRetry) }
    match classify decodeResponse (net isRetry) with
    | .success code => { response := some code, state := st2, attemptRegions := [active] }
    | .terminal => { response := none, state := st2, attemptRegions := [active] }
    | .retryCand =>
      if isRetry < 3 then
        let r := retrieveAux net decodeResponse fl fuel (isRetry + 1) st2
        { r with attemptRegions := active :: r.attemptRegions }
      else
        { response := none, state := st2, attemptRegions := [active] }

/-- Top-level `retrieve` call: attempt index starts at 0. -/
def retrieve (net : Nat → Outcome) (decodeResponse : Bool) (fl : String)
    (st : ClientState) : RunResult :=
  retrieveAux net decodeResponse fl 4 0 st

/-- C1: when every attempt's outcome is classified as a candidate for retry,
`retrieve` issues exactly 4 HTTP requests (1 original + 3 retries) and
returns null. -/
theorem retrieve_retry_budget (net : Nat → Outcome) (decodeResponse : Bool)
    (fl : String) (st : ClientState)
    (hc : ∀ i, i < 4 → classify decodeResponse (net i) = .retryCand) :
    (retrieve net decodeResponse fl st).response = none
    ∧ (retrieve net decodeResponse fl st).attemptRegions.length = 4 := by
  have h0 := hc 0 (by omega)
  have h1 := hc 1 (by omega)
  have h2 := hc 2 (by omega)
  have h3 := hc 3 (by omega)
  simp [retrieve, retrieveAux, h0, h1, h2, h3]

/-- Witness for C1: a transport that always fails. -/
theorem retrieve_retry_budget_witness :
    (∀ i, i < 4 → classify true ((fun _ => Outcome.transportError) i) = .retryCand)
    ∧ ((retrieve (fun _ => Outcome.transportError) true "devices" initialState).response = none
      ∧ (retrieve (fun _ => Outcome.transportError) true "devices" initialState).attemptRegions.length = 4) :=
  ⟨by decide, retrieve_retry_budget (fun _ => Outcome.transportError) true "devices"
    initialState (by decide)⟩

/-- C2: on a `retrieve` call whose target hostname is not already
region-qualified and all of whose attempts are retry candidates, the region
is not advanced on the first attempt, advances exactly once (cyclically,
modulo the 3-entry region list) at the start of each retry attempt - so the
per-attempt active regions are `r, (r+1)%3, (r+2)%3, r` - and the first 3
consecutive failing attempts visit all 3 regions exactly once before the
final failure (null) is returned. -/
theorem retrieve_region_rotation (net : Nat → Outcome) (decodeResponse : Bool)
    (fl : String) (st : ClientState)
    (hq : regionRegexTest fl = false) (hr : st.region < 3)
    (hc : ∀ i, i < 4 → classify decodeResponse (net i) = .retryCand) :
    (retrieve net decodeResponse fl st).response = none
    ∧ (retrieve net decodeResponse fl st).attemptRegions
        = [st.region, (st.region + 1) % 3, (st.region + 2) % 3, st.region]
    ∧ List.Perm ((retrieve net decodeResponse fl st).attemptRegions.take 3) [0, 1, 2] := by
  have h0 := hc 0 (by omega)
  have h1 := hc 1 (by omega)
  have h2 := hc 2 (by omega)
  have h3 := hc 3 (by omega)
  have e2 : ((st.region + 1) % 3 + 1) % 3 = (st.region + 2) % 3 := by omega
  have e3 : ((st.region + 2) % 3 + 1) % 3 = st.region := by omega
  have hrun : (retrieve net decodeResponse fl st).attemptRegions
      = [st.region, (st.region + 1) % 3, (st.region + 2) % 3, st.region] := by
    simp [retrieve, retrieveAux, h0, h1, h2, h3, regionStep, hq, myQRegions, e2, e3]
  refine ⟨?_, hrun, ?_⟩
  · simp [retrieve, retrieveAux, h0, h1, h2, h3]
  · rw [hrun]
    interval_cases h : st.region <;> decide

/-- Witness for C2: always-failing transport, starting region 2. -/
theorem retrieve_region_rotation_witness :
    (regionRegexTest "devices" = false ∧ ({ initialState with region := 2 } : ClientState).region < 3
      ∧ ∀ i, i < 4 → classify true ((fun _ => Outcome.transportError) i) = .retryCand)
    ∧ ((retrieve (fun _ => Outcome.transportError) true "devices" { initialState with region := 2 }).response = none
      ∧ (retrieve (fun _ => Outcome.transportError) true "devices" { initialState with region := 2 }).attemptRegions
          = [2, (2 + 1) % 3, (2 + 2) % 3, 2]
      ∧ List.Perm ((retrieve (fun _ => Outcome.transportError) true "devices"
          { initialState with region := 2 }).attemptRegions.take 3) [0, 1, 2]) :=
  ⟨⟨by decide, by decide, by decide⟩,
    retrieve_region_rotation (fun _ => Outcome.transportError) true "devices"
      { initialState with region := 2 } (by decide) (by decide) (by decide)⟩

/-- C3: a `retrieve` call with `decodeResponse` true whose first attempt
receives an HTTP 403 returns null immediately: exactly one request is issued
(no retry), the region index is left unchanged, and the recorded API status
is 403. -/
theorem retrieve_forbidden_terminal (net : Nat → Outcome) (fl : String)
    (st : ClientState) (h403 : net 0 = .status 403) :
    (retrieve net true fl st).response = none
    ∧ (retrieve net true fl st).attemptRegions = [st.region]
    ∧ (retrieve net true fl st).state.region = st.region
    ∧ (retrieve net true fl st).state.apiReturnStatus = 403 := by
  have hcl : classify true (Outcome.status 403) = .terminal := by decide
  simp [retrieve, retrieveAux, h403, hcl, regionStep, statusOf]

/-- Witness for C3: a 403 on the first attempt. -/
theorem retrieve_forbidden_terminal_witness :
    ((fun _ => Outcome.status 403) 0 = Outcome.status 403)
    ∧ ((retrieve (fun _ => Outcome.status 403) true "account-devices-gdo" initialState).response = none
      ∧ (retrieve (fun _ => Outcome.status 403) true "account-devices-gdo" initialState).attemptRegions
          = [initialState.region]
      ∧ (retrieve (fun _ => Outcome.status 403) true "account-devices-gdo" initialState).state.region
          = initialState.region
      ∧ (retrieve (fun _ => Outcome.status 403) true "account-devices-gdo" initialState).state.apiReturnStatus
          = 403) :=
  ⟨rfl, retrieve_forbidden_terminal (fun _ => Outcome.status 403) "account-devices-gdo"
    initialState rfl⟩

/-- Refresh-interval computation shared by `getOAuthToken` and
`refreshOAuthToken`: `this.refreshInterval = token.expires_in`, then subtract
the seven-minute safety margin (`this.refreshInterval -= 420`), then clamp to
the five-minute minimum (`if(this.refreshInterval < 300) this.refreshInterval = 300`). -/
def computeRefreshInterval (expiresIn : Int) : Int :=
  let refreshInterval := expiresIn - 420
  if refreshInterval < 300 then 300 else refreshInterval

/-- C6: after every successful token acquisition or refresh, the computed
refresh interval equals `expires_in` minus the 420-second safety margin,
floored at the 300-second minimum - in particular it is always ≥ 300, even
when `expires_in` is smaller than the margin. -/
theorem computeRefreshInterval_floor (expiresIn : Int) :
    computeRefreshInterval expiresIn = max (expiresIn - 420) 300
    ∧ 300 ≤ computeRefreshInterval expiresIn := by
  simp only [computeRefreshInterval]
  constructor <;> split <;> omega

/-- Embedding of `refreshAccessToken`. The network-touching subroutines
`acquireAccessToken` and `refreshOAuthToken` are oracles returning their
success flag, the state they leave behind, and the number of network requests
they issued; the third component of the result counts the network requests
the call issued in total. The throttle branch, the no-token branch, the
still-fresh branch and the refresh-then-reacquire tail follow the source in
order. -/
def refreshAccessToken (now : Nat) (st : ClientState)
    (acquireAccessToken refreshOAuthToken : ClientState → Bool × ClientState × Nat) :
    Bool × ClientState × Nat :=
  if now - st.lastAuthenticateCall < 2 * 60 * 1000 then
    ((st.accounts.length != 0 && st.accessToken.isSome), st, 0)
  else if st.accounts.length = 0 ∨ st.accessToken = none then
    acquireAccessToken st
  else if (now : Int) - (st.accessTokenTimestamp : Int) < st.refreshInterval * 1000 then
    (true, st, 0)
  else
    match refreshOAuthToken st with
    | (true, st1, n1) => (true, st1, n1)
    | (false, st1, n1) =>
      let (ok, st2, n2) := acquireAccessToken st1
      (ok, st2, n1 + n2)

/-- C4: a `refreshAccessToken` call made less than the 2-minute cooldown after
the previous authentication attempt issues zero network requests, leaves the
state unchanged, and returns true if and only if an access token is present
and the account set is non-empty. -/
theorem refreshAccessToken_throttle (now : Nat) (st : ClientState)
    (acq ref : ClientState → Bool × ClientState × Nat)
    (h : now - st.lastAuthenticateCall < 2 * 60 * 1000) :
    refreshAccessToken now st acq ref
      = ((st.accounts.length != 0 && st.accessToken.isSome), st, 0)
    ∧ ((refreshAccessToken now st acq ref).1 = true
        ↔ (st.accessToken ≠ none ∧ st.accounts ≠ [])) := by
  have he : refreshAccessToken now st acq ref
      = ((st.accounts.length != 0 && st.accessToken.isSome), st, 0) := by
    simp [refreshAccessToken, h]
  refine ⟨he, ?_⟩
  rw [he]
  cases st.accessToken <;> cases st.accounts <;> simp

/-- Authenticated sample state: a live token, one account, last
authentication at the 60-second mark. -/
def sessionReadyState : ClientState :=
  { initialState with accessToken := some "Bearer token", accounts := ["account1"], lastAuthenticateCall := 60000 }

/-- Witness for C4: a call 50 seconds after the last authentication, with a
live token and one account. -/
theorem refreshAccessToken_throttle_witness :
    ((110000 : Nat) - sessionReadyState.lastAuthenticateCall < 2 * 60 * 1000)
    ∧ (refreshAccessToken 110000 sessionReadyState
        (fun s => (true, s, 5)) (fun s => (true, s, 1))
        = ((sessionReadyState.accounts.length != 0 && sessionReadyState.accessToken.isSome),
            sessionReadyState, 0)
      ∧ ((refreshAccessToken 110000 sessionReadyState
          (fun s => (true, s, 5)) (fun s => (true, s, 1))).1 = true
        ↔ (sessionReadyState.accessToken ≠ none ∧ sessionReadyState.accounts ≠ []))) :=
  ⟨by decide, refreshAccessToken_throttle 110000 sessionReadyState
    (fun s => (true, s, 5)) (fun s => (true, s, 1)) (by decide)⟩

/-- Embedding of `getDevice`. The sanity check `!this.login || !this.password`
reduces to the password check, because `this.login` is a bound method and
therefore always truthy in the source. The staleness check then requires a
device list, a recorded `lastRefreshDevicesCall`, and that call to be at most
a minute old; finally the list is searched by case-insensitive serial number. -/
def getDevice (now : Nat) (st : ClientState) (serial : String) : Option myQDevice :=
  if st.password = none then none
  else if st.devices = none ∨ st.lastRefreshDevicesCall = 0
      ∨ 60 * 1000 < now - st.lastRefreshDevicesCall then none
  else if serial.length = 0 then none
  else (st.devices.getD []).find? (fun x =>
    match x.serial_number with
    | none => false
    | some sn => sn.toUpper == serial.toUpper)

/-- C8: a `getDevice` lookup on a snapshot that is more than 60 seconds older
than the last `refreshDevices` call, or when no snapshot exists at all,
returns absent rather than possibly-stale data. -/
theorem getDevice_stale (now : Nat) (st : ClientState) (serial : String)
    (h : st.devices = none ∨ st.lastRefreshDevicesCall = 0
      ∨ 60 * 1000 < now - st.lastRefreshDevicesCall) :
    getDevice now st serial = none := by
  simp [getDevice, h]

/-- Sample gateway device. -/
def gatewayDevice : myQDevice :=
  { serial_number := some "GW0123456789", device_family := "gateway", name := "Door" }

/-- Logged-in sample state whose device snapshot was refreshed at the
1-second mark. -/
def staleSnapshotState : ClientState :=
  { initialState with password := some "secret", devices := some [gatewayDevice], lastRefreshDevicesCall := 1000 }

/-- Witness for C8: a lookup 61.001 seconds after the last refresh. -/
theorem getDevice_stale_witness :
    (staleSnapshotState.devices = none
      ∨ staleSnapshotState.lastRefreshDevicesCall = 0
      ∨ 60 * 1000 < 62001 - staleSnapshotState.lastRefreshDevicesCall)
    ∧ getDevice 62001 staleSnapshotState "GW0123456789" = none :=
  ⟨by decide, getDevice_stale 62001 staleSnapshotState "GW0123456789" (by decide)⟩

/-- Per-account device-list loop of `refreshDevices`: for each known account
id, issue one request for that account's device list and append the items to
`newDeviceList`; the first failed request aborts the loop. `fetchDev` is the
network oracle (`none` models a null return from `retrieve`); the second
component counts the requests issued. -/
def fetchLoop (fetchDev : String → Option (List myQDevice)) :
    List String → Option (List myQDevice) × Nat
  | [] => (some [], 0)
  | accountId :: rest =>
    match fetchDev accountId with
    | none => (none, 1)
    | some items =>
      match fetchLoop fetchDev rest with
      | (none, n) => (none, n + 1)
      | (some tail, n) => (some (items ++ tail), n + 1)

lemma fetchLoop_fail (fetchDev : String → Option (List myQDevice))
    (accounts : List String) (h : ∃ a ∈ accounts, fetchDev a = none) :
    (fetchLoop fetchDev accounts).1 = none := by
  induction accounts with
  | nil => exact absurd h (by simp)
  | cons a rest ih =>
    rcases h with ⟨b, hb, hfail⟩
    rcases List.mem_cons.mp hb with hba | hbr
    · subst hba
      simp [fetchLoop, hfail]
    · cases hfa : fetchDev a with
      | none => simp [fetchLoop, hfa]
      | some items =>
        have := ih ⟨b, hbr, hfail⟩
        simp only [fetchLoop, hfa]
        rcases hrec : fetchLoop fetchDev rest with ⟨r, n⟩
        rw [hrec] at this
        simp at this
        subst this
        rfl

/-- Embedding of `refreshDevices`. The sanity check reduces to the password
check (`this.login` is a bound method, hence always truthy). Within the
2-second cooldown the previous snapshot's status is returned with no network
traffic; otherwise the call timestamp is reset, the token is validated via
`refreshAccessToken` (oracle `refreshAccessTokenO`), the account list is
re-fetched via `getAccounts` (oracle `getAccountsO`), the per-account device
loop runs, and on full success the snapshot is replaced atomically. A failure
of `getAccounts` or of any single device request clears the access token and
the account set; the snapshot is only written on success. The third result
component counts network requests. -/
def refreshDevices (now : Nat) (st : ClientState)
    (refreshAccessTokenO getAccountsO : ClientState → Bool × ClientState × Nat)
    (fetchDev : String → Option (List myQDevice)) : Bool × ClientState × Nat :=
  if st.password = none then (false, st, 0)
  else if st.lastRefreshDevicesCall ≠ 0 ∧ now - st.lastRefreshDevicesCall < 2 * 1000 then
    (st.devices.isSome, st, 0)
  else
    let st1 : ClientState := { st with lastRefreshDevicesCall := now }
    match refreshAccessTokenO st1 with
    | (false, st2, n1) => (false, st2, n1)
    | (true, st2, n1) =>
      match getAccountsO st2 with
      | (false, st3, n2) => (false, { st3 with accessToken := none, accounts := [] }, n1 + n2)
      | (true, st3, n2) =>
        match fetchLoop fetchDev st3.accounts with
        | (none, n3) => (false, { st3 with accessToken := none, accounts := [] }, n1 + n2 + n3)
        | (some newDeviceList, n3) =>
          (true, { st3 with devices := some newDeviceList }, n1 + n2 + n3)

/-- C5: a `refreshDevices` call that reaches the device loop and has any
single account's device-list request fail returns false, leaves the stored
device snapshot exactly as it was before the call, and invalidates the
session: the access token is cleared and the account set emptied. The oracle
hypotheses record what the source guarantees about `refreshAccessToken` and
`getAccounts`: neither touches `this.devices`. -/
theorem refreshDevices_account_failure (now : Nat) (st stA stB : ClientState)
    (nA nB : Nat)
    (authO getAccO : ClientState → Bool × ClientState × Nat)
    (fetchDev : String → Option (List myQDevice))
    (hpw : st.password ≠ none)
    (hth : st.lastRefreshDevicesCall = 0 ∨ 2 * 1000 ≤ now - st.lastRefreshDevicesCall)
    (hauth : authO { st with lastRefreshDevicesCall := now } = (true, stA, nA))
    (hAdev : stA.devices = st.devices)
    (hacc : getAccO stA = (true, stB, nB))
    (hBdev : stB.devices = stA.devices)
    (hfail : ∃ a ∈ stB.accounts, fetchDev a = none) :
    (refreshDevices now st authO getAccO fetchDev).1 = false
    ∧ (refreshDevices now st authO getAccO fetchDev).2.1.devices = st.devices
    ∧ (refreshDevices now st authO getAccO fetchDev).2.1.accessToken = none
    ∧ (refreshDevices now st authO getAccO fetchDev).2.1.accounts = [] := by
  have hnt : ¬(st.lastRefreshDevicesCall ≠ 0 ∧ now - st.lastRefreshDevicesCall < 2 * 1000) := by
    rcases hth with h | h
    · exact fun hcon => hcon.1 h
    · exact fun hcon => absurd hcon.2 (by omega)
  have hloop : (fetchLoop fetchDev stB.accounts).1 = none := fetchLoop_fail fetchDev stB.accounts hfail
  rcases hrec : fetchLoop fetchDev stB.accounts with ⟨r, n3⟩
  rw [hrec] at hloop
  simp only at hloop
  subst hloop
  simp [refreshDevices, hpw, hnt, hauth, hacc, hrec, hAdev, hBdev]

/-- Sample logged-in state with a previous snapshot, outside the cooldown. -/
def refreshReadyState : ClientState :=
  { initialState with password := some "secret", devices := some [gatewayDevice], lastRefreshDevicesCall := 1000 }

/-- Witness for C5: the single account's device request returns null. -/
theorem refreshDevices_account_failure_witness :
    (refreshReadyState.password ≠ none
      ∧ (refreshReadyState.lastRefreshDevicesCall = 0
          ∨ 2 * 1000 ≤ 10000 - refreshReadyState.lastRefreshDevicesCall)
      ∧ (∃ a ∈ ({ refreshReadyState with lastRefreshDevicesCall := 10000, accounts := ["account1"] } : ClientState).accounts, (fun _ => (none : Option (List myQDevice))) a = none))
    ∧ ((refreshDevices 10000 refreshReadyState
          (fun s => (true, s, 9)) (fun s => (true, { s with accounts := ["account1"] }, 1))
          (fun _ => none)).1 = false
      ∧ (refreshDevices 10000 refreshReadyState
          (fun s => (true, s, 9)) (fun s => (true, { s with accounts := ["account1"] }, 1))
          (fun _ => none)).2.1.devices = refreshReadyState.devices
      ∧ (refreshDevices 10000 refreshReadyState
          (fun s => (true, s, 9)) (fun s => (true, { s with accounts := ["account1"] }, 1))
          (fun _ => none)).2.1.accessToken = none
      ∧ (refreshDevices 10000 refreshReadyState
          (fun s => (true, s, 9)) (fun s => (true, { s with accounts := ["account1"] }, 1))
          (fun _ => none)).2.1.accounts = []) :=
  ⟨⟨by decide, by decide, ⟨"account1", by decide, rfl⟩⟩,
    refreshDevices_account_failure 10000 refreshReadyState
      { refreshReadyState with lastRefreshDevicesCall := 10000 }
      { refreshReadyState with lastRefreshDevicesCall := 10000, accounts := ["account1"] }
      9 1
      (fun s => (true, s, 9)) (fun s => (true, { s with accounts := ["account1"] }, 1))
      (fun _ => none)
      (by decide) (by decide) (by decide) (by decide) (by decide) (by decide)
      ⟨"account1", by decide, rfl⟩⟩

/-- C7: a `refreshDevices` call made less than the 2-second cooldown after a
previous `refreshDevices` call (which recorded a positive timestamp) issues
no network traffic, leaves the state - in particular the stored snapshot -
unchanged, and returns the previous snapshot's status: true if and only if a
device list exists. -/
theorem refreshDevices_throttle (now : Nat) (st : ClientState)
    (authO getAccO : ClientState → Bool × ClientState × Nat)
    (fetchDev : String → Option (List myQDevice))
    (hpw : st.password ≠ none)
    (hprev : st.lastRefreshDevicesCall ≠ 0)
    (h : now - st.lastRefreshDevicesCall < 2 * 1000) :
    refreshDevices now st authO getAccO fetchDev = (st.devices.isSome, st, 0)
    ∧ ((refreshDevices now st authO getAccO fetchDev).1 = true ↔ st.devices ≠ none) := by
  have he : refreshDevices now st authO getAccO fetchDev = (st.devices.isSome, st, 0) := by
    simp [refreshDevices, hpw, hprev, h]
  refine ⟨he, ?_⟩
  rw [he]
  cases st.devices <;> simp

/-- Witness for C7: a second call one second after the previous one. -/
theorem refreshDevices_throttle_witness :
    (refreshReadyState.password ≠ none
      ∧ refreshReadyState.lastRefreshDevicesCall ≠ 0
      ∧ 2000 - refreshReadyState.lastRefreshDevicesCall < 2 * 1000)
    ∧ (refreshDevices 2000 refreshReadyState
        (fun s => (true, s, 9)) (fun s => (true, s, 1)) (fun _ => some [])
        = (refreshReadyState.devices.isSome, refreshReadyState, 0)
      ∧ ((refreshDevices 2000 refreshReadyState
          (fun s => (true, s, 9)) (fun s => (true, s, 1)) (fun _ => some [])).1 = true
        ↔ refreshReadyState.devices ≠ none)) :=
  ⟨⟨by decide, by decide, by decide⟩,
    refreshDevices_throttle 2000 refreshReadyState
      (fun s => (true, s, 9)) (fun s => (true, s, 1)) (fun _ => some [])
      (by decide) (by decide) (by decide)⟩

lemma retrieveAux_last_status (net : Nat → Outcome) (decodeResponse : Bool) (fl : String) :
    ∀ fuel isRetry st, fuel ≠ 0 →
      (retrieveAux net decodeResponse fl fuel isRetry st).state.apiReturnStatus
        = statusOf (net (isRetry + (retrieveAux net decodeResponse fl fuel isRetry st).attemptRegions.length - 1)) := by
  intro fuel
  induction fuel with
  | zero => intro isRetry st h; exact absurd rfl h
  | succ n ih =>
    intro isRetry st _
    simp only [retrieveAux]
    cases hc : classify decodeResponse (net isRetry) with
    | success code => simp
    | terminal => simp
    | retryCand =>
      by_cases h3 : isRetry < 3
      · by_cases hn : n = 0
        · subst hn
          simp [retrieveAux, h3]
        · have := ih (isRetry + 1) { st with
            region := regionStep (regionRegexTest fl) isRetry st.region,
            apiReturnStatus := statusOf (net isRetry) } hn
          simp only [h3, if_true] at *
          simp only [List.length_cons]
          rw [this]
          congr 2
          omega
      · simp [h3]

lemma retrieveAux_session_frame (net : Nat → Outcome) (decodeResponse : Bool) (fl : String) :
    ∀ fuel isRetry st,
      (retrieveAux net decodeResponse fl fuel isRetry st).state.accessToken = st.accessToken
      ∧ (retrieveAux net decodeResponse fl fuel isRetry st).state.accounts = st.accounts
      ∧ (retrieveAux net decodeResponse fl fuel isRetry st).state.devices = st.devices := by
  intro fuel
  induction fuel with
  | zero => intro isRetry st; exact ⟨rfl, rfl, rfl⟩
  | succ n ih =>
    intro isRetry st
    simp only [retrieveAux]
    cases hc : classify decodeResponse (net isRetry) with
    | success code => simp
    | terminal => simp
    | retryCand =>
      by_cases h3 : isRetry < 3
      · have := ih (isRetry + 1) { st with
          region := regionStep (regionRegexTest fl) isRetry st.region,
          apiReturnStatus := statusOf (net isRetry) }
        simp only [h3, if_true]
        simpa using this
      · simp [h3]

/-- Error check of `execute` after the command's `retrieve` call: a null
response with a recorded 403 status returns false leaving the session fields
alone; any other null response returns false after clearing the access token
and the account set; a non-null response returns true. -/
def executeCheck (run : RunResult) : Bool × ClientState :=
  match run.response with
  | some _ => (true, run.state)
  | none =>
    if run.state.apiReturnStatus == 403 then (false, run.state)
    else (false, { run.state with accessToken := none, accounts := [] })

/-- C10: every `retrieve` call resets the shared `apiReturnStatus` field to 0
and records each response's status, so after the call the field holds the
status of the last attempt (0 if it was a transport error). Consequently,
when the command request of `execute` ultimately fails (null response),
`execute` returns false, and it leaves the access token and account set
unchanged when the recorded status is 403, while any other recorded status
makes it clear both, invalidating the session. -/
theorem execute_failure_classification (net : Nat → Outcome) (fl : String)
    (st : ClientState)
    (hfail : (retrieve net true fl st).response = none) :
    (executeCheck (retrieve net true fl st)).1 = false
    ∧ (retrieve net true fl st).state.apiReturnStatus
        = statusOf (net ((retrieve net true fl st).attemptRegions.length - 1))
    ∧ ((retrieve net true fl st).state.apiReturnStatus = 403 →
        (executeCheck (retrieve net true fl st)).2.accessToken = st.accessToken
        ∧ (executeCheck (retrieve net true fl st)).2.accounts = st.accounts)
    ∧ ((retrieve net true fl st).state.apiReturnStatus ≠ 403 →
        (executeCheck (retrieve net true fl st)).2.accessToken = none
        ∧ (executeCheck (retrieve net true fl st)).2.accounts = []) := by
  have hstat := retrieveAux_last_status net true fl 4 0 st (by omega)
  have hframe := retrieveAux_session_frame net true fl 4 0 st
  refine ⟨?_, ?_, ?_, ?_⟩
  · simp [executeCheck, hfail]
    split <;> simp
  · simpa using hstat
  · intro h403
    simp [executeCheck, hfail, h403]
    exact ⟨hframe.1, hframe.2.1⟩
  · intro h403
    simp [executeCheck, hfail, h403]

/-- Network oracle whose every attempt returns HTTP 500. -/
def alwaysInternalError : Nat → Outcome := fun _ => Outcome.status 500

/-- Witness for C10: a command whose every attempt returns HTTP 500; the
recorded status 500 is not 403, so the session is invalidated. -/
theorem execute_failure_classification_witness :
    ((retrieve alwaysInternalError true "account-devices-gdo" sessionReadyState).response = none)
    ∧ ((executeCheck (retrieve alwaysInternalError true "account-devices-gdo" sessionReadyState)).1 = false
      ∧ (retrieve alwaysInternalError true "account-devices-gdo" sessionReadyState).state.apiReturnStatus
          = statusOf (alwaysInternalError
              ((retrieve alwaysInternalError true "account-devices-gdo" sessionReadyState).attemptRegions.length - 1))
      ∧ ((retrieve alwaysInternalError true "account-devices-gdo" sessionReadyState).state.apiReturnStatus = 403 →
          (executeCheck (retrieve alwaysInternalError true "account-devices-gdo" sessionReadyState)).2.accessToken
              = sessionReadyState.accessToken
          ∧ (executeCheck (retrieve alwaysInternalError true "account-devices-gdo" sessionReadyState)).2.accounts
              = sessionReadyState.accounts)
      ∧ ((retrieve alwaysInternalError true "account-devices-gdo" sessionReadyState).state.apiReturnStatus ≠ 403 →
          (executeCheck (retrieve alwaysInternalError true "account-devices-gdo" sessionReadyState)).2.accessToken = none
          ∧ (executeCheck (retrieve alwaysInternalError true "account-devices-gdo" sessionReadyState)).2.accounts = [])) :=
  ⟨by decide, execute_failure_classification alwaysInternalError "account-devices-gdo"
    sessionReadyState (by decide)⟩

end MyQ
